import Mathlib

set_option maxRecDepth 100000
set_option maxHeartbeats 2000000

/-!
Verification of the SVG icon builder in `src/icons/create_icons.py`.

The only non-trivial behaviour in the repository is the pure function
`create_svg_icon(size, add_snapshot)`, which builds an SVG document string
from an integer pixel size and a boolean flag.  We embed it shallowly:
Python integers become `Int`, Python `//` (floor division) becomes
`Int.fdiv`, and f-string interpolation `{e}` becomes `Int.repr e`
(decimal rendering, with a leading `-` for negatives, exactly as Python's
`str` on `int`).  String concatenation in the embedding splits the
f-string literals at the interpolation points (and at a few additional
points, which does not change the concatenated value).
-/

/-- Embedding of `create_svg_icon`'s initial f-string (the part built
unconditionally, before the optional badge): the `<svg>` opening tag,
the background rectangle and the centered "RL4" text label. -/
def svg_header (size : Int) : String :=
  "<svg width=\"" ++ Int.repr size ++ "\" height=\"" ++ Int.repr size ++ "\"" ++ " " ++
  "xmlns=\"http://www.w3.org/2000/svg\"" ++ ">" ++ "\n  " ++
  "<rect width=\"" ++ Int.repr size ++ "\" height=\"" ++ Int.repr size ++
  "\" fill=\"#5436DA\"/>" ++
  "\n  <text x=\"50%\" y=\"50%\" font-family=\"Arial, sans-serif\" " ++
  "font-size=\"" ++ Int.repr (Int.fdiv size 2) ++ "\"" ++
  " font-weight=\"bold\" fill=\"white\" text-anchor=\"middle\" dominant-baseline=\"central\">" ++
  "RL4" ++ "</text>\n"

/-- Embedding of the f-string appended when `add_snapshot and size >= 128`:
the decorative badge (square outline, three lines, circle, triangle). -/
def snapshot_badge (size : Int) : String :=
  "  <rect x=\"" ++ Int.repr (size - 40) ++ "\" y=\"" ++ Int.repr (size - 40) ++
  "\" width=\"32\" height=\"32\" fill=\"none\" stroke=\"white\" stroke-width=\"2\"/>\n  <line x1=\"" ++
  Int.repr (size - 36) ++ "\" y1=\"" ++ Int.repr (size - 30) ++ "\" x2=\"" ++
  Int.repr (size - 8) ++ "\" y2=\"" ++ Int.repr (size - 30) ++
  "\" stroke=\"white\" stroke-width=\"1\"/>\n  <line x1=\"" ++
  Int.repr (size - 36) ++ "\" y1=\"" ++ Int.repr (size - 24) ++ "\" x2=\"" ++
  Int.repr (size - 8) ++ "\" y2=\"" ++ Int.repr (size - 24) ++
  "\" stroke=\"white\" stroke-width=\"1\"/>\n  <line x1=\"" ++
  Int.repr (size - 36) ++ "\" y1=\"" ++ Int.repr (size - 18) ++ "\" x2=\"" ++
  Int.repr (size - 8) ++ "\" y2=\"" ++ Int.repr (size - 18) ++
  "\" stroke=\"white\" stroke-width=\"1\"/>\n  <circle cx=\"" ++
  Int.repr (size - 24) ++ "\" cy=\"" ++ Int.repr (size - 52) ++
  "\" r=\"8\" fill=\"none\" stroke=\"white\" stroke-width=\"2\"/>\n  <polygon points=\"" ++
  Int.repr (size - 24) ++ "," ++ Int.repr (size - 60) ++ " " ++
  Int.repr (size - 28) ++ "," ++ Int.repr (size - 56) ++ " " ++
  Int.repr (size - 20) ++ "," ++ Int.repr (size - 56) ++ "\" fill=\"white\"/>\n"

/-- Embedding of `create_svg_icon(size, add_snapshot)` from
`src/icons/create_icons.py`: the header, then (only when
`add_snapshot and size >= 128`) the badge, then the closing tag. -/
def create_svg_icon (size : Int) (add_snapshot : Bool) : String :=
  (if add_snapshot && decide (size ≥ 128) then svg_header size ++ snapshot_badge size
   else svg_header size) ++ "</svg>"

/-- Sanity check against the exact text Python produces for size 16. -/
theorem create_svg_icon_16_spec :
    create_svg_icon 16 false =
    "<svg width=\"16\" height=\"16\" xmlns=\"http://www.w3.org/2000/svg\">\n  <rect width=\"16\" height=\"16\" fill=\"#5436DA\"/>\n  <text x=\"50%\" y=\"50%\" font-family=\"Arial, sans-serif\" font-size=\"8\" font-weight=\"bold\" fill=\"white\" text-anchor=\"middle\" dominant-baseline=\"central\">RL4</text>\n</svg>" := by
  decide

/-- Sanity check against the exact text Python produces for size 128 with
the badge enabled. -/
theorem create_svg_icon_128_spec :
    create_svg_icon 128 true =
    "<svg width=\"128\" height=\"128\" xmlns=\"http://www.w3.org/2000/svg\">\n  <rect width=\"128\" height=\"128\" fill=\"#5436DA\"/>\n  <text x=\"50%\" y=\"50%\" font-family=\"Arial, sans-serif\" font-size=\"64\" font-weight=\"bold\" fill=\"white\" text-anchor=\"middle\" dominant-baseline=\"central\">RL4</text>\n  <rect x=\"88\" y=\"88\" width=\"32\" height=\"32\" fill=\"none\" stroke=\"white\" stroke-width=\"2\"/>\n  <line x1=\"92\" y1=\"98\" x2=\"120\" y2=\"98\" stroke=\"white\" stroke-width=\"1\"/>\n  <line x1=\"92\" y1=\"104\" x2=\"120\" y2=\"104\" stroke=\"white\" stroke-width=\"1\"/>\n  <line x1=\"92\" y1=\"110\" x2=\"120\" y2=\"110\" stroke=\"white\" stroke-width=\"1\"/>\n  <circle cx=\"104\" cy=\"76\" r=\"8\" fill=\"none\" stroke=\"white\" stroke-width=\"2\"/>\n  <polygon points=\"104,68 100,72 108,72\" fill=\"white\"/>\n</svg>" := by
  decide

/-- `beginsWith pat s` holds when the character list `pat` is an initial
segment of the character list `s`. -/
def beginsWith : List Char → List Char → Bool
  | [], _ => true
  | _ :: _, [] => false
  | p :: ps, c :: cs => p == c && beginsWith ps cs

/-- Number of positions of `s` (strictly inside `s`) at which the pattern
`pat` occurs as a contiguous sublist. -/
def occCount (pat : List Char) : List Char → Nat
  | [] => 0
  | c :: cs => (if beginsWith pat (c :: cs) then 1 else 0) + occCount pat cs

/-- Number of occurrences of the string `pat` inside the string `s`. -/
def strOccCount (pat s : String) : Nat :=
  occCount pat.data s.data

/-- `pat` is an initial segment of `s` (on the underlying characters). -/
def strStarts (pat s : String) : Bool :=
  beginsWith pat.data s.data

/-- `pat` is a final segment of `s` (on the underlying characters). -/
def strEnds (pat s : String) : Bool :=
  beginsWith pat.data.reverse s.data.reverse

theorem beginsWith_append_right (l m : List Char) : beginsWith l (l ++ m) = true := by
  induction l with
  | nil => rfl
  | cons p ps ih => simp [beginsWith, ih]

theorem strStarts_of_append {p r s : String} (h : s = p ++ r) : strStarts p s = true := by
  subst h
  unfold strStarts
  rw [String.data_append]
  exact beginsWith_append_right _ _

theorem strEnds_of_append {p a s : String} (h : s = a ++ p) : strEnds p s = true := by
  subst h
  unfold strEnds
  rw [String.data_append, List.reverse_append]
  exact beginsWith_append_right _ _

theorem le_occCount_append_left (pat l m : List Char) :
    occCount pat m ≤ occCount pat (l ++ m) := by
  induction l with
  | nil => simp
  | cons c cs ih =>
    rw [List.cons_append]
    calc occCount pat m ≤ occCount pat (cs ++ m) := ih
      _ ≤ occCount pat (c :: (cs ++ m)) := by rw [occCount]; omega

theorem one_le_occCount_self (pat m : List Char) (h : pat ≠ []) :
    1 ≤ occCount pat (pat ++ m) := by
  cases pat with
  | nil => exact absurd rfl h
  | cons p ps =>
    have hb := beginsWith_append_right (p :: ps) m
    rw [List.cons_append] at hb
    rw [List.cons_append, occCount, hb]
    simp

theorem one_le_occCount (pat a b : List Char) (h : pat ≠ []) :
    1 ≤ occCount pat (a ++ (pat ++ b)) :=
  le_trans (one_le_occCount_self pat b h) (le_occCount_append_left pat a (pat ++ b))

theorem one_le_strOccCount {pat a b s : String} (hpat : pat.data ≠ [])
    (hs : s = a ++ (pat ++ b)) : 1 ≤ strOccCount pat s := by
  subst hs
  unfold strOccCount
  rw [String.data_append, String.data_append]
  exact one_le_occCount pat.data a.data b.data hpat

theorem occCount_le_count (c : Char) (ps : List Char) :
    ∀ s : List Char, occCount (c :: ps) s ≤ List.count c s := by
  intro s
  induction s with
  | nil => simp [occCount]
  | cons x xs ih =>
    rw [occCount, List.count_cons]
    have hind : (if beginsWith (c :: ps) (x :: xs) then 1 else 0)
        ≤ (if x == c then 1 else 0) := by
      by_cases hb : beginsWith (c :: ps) (x :: xs) = true
      · have hcx : c = x := by
          rw [beginsWith] at hb
          exact beq_iff_eq.mp ((Bool.and_eq_true _ _).mp hb).1
        have hxc : (x == c) = true := beq_iff_eq.mpr hcx.symm
        simp [hb, hxc]
      · simp [hb]
    omega

theorem occCount_tail_le (pat : List Char) (s : List Char) :
    occCount pat s.tail ≤ occCount pat s := by
  cases s with
  | nil => simp
  | cons c cs => rw [List.tail_cons, occCount]; omega

theorem occCount_cons_le_tail (a : Char) (pat : List Char) (h : pat ≠ []) :
    ∀ s : List Char, occCount (a :: pat) s ≤ occCount pat s.tail := by
  intro s
  induction s with
  | nil => simp [occCount]
  | cons x xs ih =>
    rw [List.tail_cons, occCount]
    cases xs with
    | nil =>
      have hfalse : beginsWith (a :: pat) [x] = false := by
        cases pat with
        | nil => exact absurd rfl h
        | cons p ps => simp [beginsWith]
      rw [hfalse]
      simp [occCount]
    | cons y ys =>
      have h1 : occCount (a :: pat) (y :: ys) ≤ occCount pat ys := by
        have hh := ih
        rwa [List.tail_cons] at hh
      have h2 : (if beginsWith (a :: pat) (x :: y :: ys) then 1 else 0)
          ≤ (if beginsWith pat (y :: ys) then 1 else 0) := by
        by_cases hb : beginsWith (a :: pat) (x :: y :: ys) = true
        · have hbt : beginsWith pat (y :: ys) = true := by
            rw [beginsWith] at hb
            exact ((Bool.and_eq_true _ _).mp hb).2
          simp [hb, hbt]
        · simp [hb]
      have h4 : occCount pat (y :: ys)
          = (if beginsWith pat (y :: ys) then 1 else 0) + occCount pat ys := by
        rw [occCount]
      omega

theorem occCount_append_pat_le (v : List Char) (hv : v ≠ []) :
    ∀ (u : List Char) (s : List Char), occCount (u ++ v) s ≤ occCount v s := by
  intro u
  induction u with
  | nil => intro s; simp
  | cons a u' ih =>
    intro s
    rw [List.cons_append]
    have h1 : occCount (a :: (u' ++ v)) s ≤ occCount (u' ++ v) s.tail :=
      occCount_cons_le_tail a (u' ++ v) (by simp [hv]) s
    have h2 : occCount (u' ++ v) s.tail ≤ occCount v s.tail := ih s.tail
    have h3 : occCount v s.tail ≤ occCount v s := occCount_tail_le v s
    omega

/-- The characters that can appear in the decimal rendering of an integer
(`Int.repr`): a sign, the digits, and the characters `Nat.digitChar` can
produce for other bases (`a`–`f` and the fallback `*`). -/
def reprChar (c : Char) : Prop :=
  c = '-' ∨ c = '*' ∨ ('0' ≤ c ∧ c ≤ '9') ∨ ('a' ≤ c ∧ c ≤ 'f')

instance (c : Char) : Decidable (reprChar c) := by
  unfold reprChar
  infer_instance

theorem digitChar_star (n : Nat) (h : 16 ≤ n) : Nat.digitChar n = '*' := by
  unfold Nat.digitChar
  iterate 16
    rw [if_neg (by omega)]

theorem digitChar_reprChar (n : Nat) : reprChar (Nat.digitChar n) := by
  by_cases h : n < 16
  · interval_cases n <;> decide
  · rw [digitChar_star n (by omega)]
    decide

theorem toDigitsCore_reprChar (b : Nat) :
    ∀ (fuel n : Nat) (ds : List Char), (∀ c ∈ ds, reprChar c) →
      ∀ c ∈ Nat.toDigitsCore b fuel n ds, reprChar c := by
  intro fuel
  induction fuel with
  | zero => intro n ds hds c hc; exact hds c hc
  | succ fuel ih =>
    intro n ds hds c hc
    rw [Nat.toDigitsCore] at hc
    have hcons : ∀ x ∈ Nat.digitChar (n % b) :: ds, reprChar x := by
      intro x hx
      rcases List.mem_cons.mp hx with h | h
      · subst h; exact digitChar_reprChar _
      · exact hds x h
    by_cases hz : n / b = 0
    · simp only [hz, if_pos rfl] at hc
      exact hcons c hc
    · simp only [if_neg hz] at hc
      exact ih (n / b) (Nat.digitChar (n % b) :: ds) hcons c hc

theorem nat_repr_reprChar (n : Nat) : ∀ c ∈ (Nat.repr n).data, reprChar c := by
  intro c hc
  exact toDigitsCore_reprChar 10 (n + 1) n [] (by intro x hx; cases hx) c hc

theorem int_repr_reprChar (i : Int) : ∀ c ∈ (Int.repr i).data, reprChar c := by
  intro c hc
  cases i with
  | ofNat m => exact nat_repr_reprChar m c hc
  | negSucc m =>
    rw [show Int.repr (Int.negSucc m) = "-" ++ Nat.repr (m + 1) from rfl,
      String.data_append] at hc
    rcases List.mem_append.mp hc with h | h
    · rw [show ("-" : String).data = ['-'] from rfl, List.mem_singleton] at h
      subst h
      exact Or.inl rfl
    · exact nat_repr_reprChar (m + 1) c h

theorem count_int_repr_zero (c : Char) (hc : ¬ reprChar c) (i : Int) :
    List.count c (Int.repr i).data = 0 := by
  rw [List.count_eq_zero]
  intro hmem
  exact hc (int_repr_reprChar i c hmem)

theorem count_R_header (size : Int) : List.count 'R' (svg_header size).data = 1 := by
  unfold svg_header
  simp only [String.data_append, List.count_append, count_int_repr_zero 'R' (by decide)]
  decide

theorem count_R_badge (size : Int) : List.count 'R' (snapshot_badge size).data = 0 := by
  unfold snapshot_badge
  simp only [String.data_append, List.count_append, count_int_repr_zero 'R' (by decide)]
  decide

theorem count_R_icon (size : Int) (b : Bool) :
    List.count 'R' (create_svg_icon size b).data = 1 := by
  unfold create_svg_icon
  rw [String.data_append, List.count_append]
  split
  · rw [String.data_append, List.count_append, count_R_header, count_R_badge]
    decide
  · rw [count_R_header]
    decide

theorem count_z_header (size : Int) : List.count 'z' (svg_header size).data = 1 := by
  unfold svg_header
  simp only [String.data_append, List.count_append, count_int_repr_zero 'z' (by decide)]
  decide

theorem count_z_badge (size : Int) : List.count 'z' (snapshot_badge size).data = 0 := by
  unfold snapshot_badge
  simp only [String.data_append, List.count_append, count_int_repr_zero 'z' (by decide)]
  decide

theorem count_z_icon (size : Int) (b : Bool) :
    List.count 'z' (create_svg_icon size b).data = 1 := by
  unfold create_svg_icon
  rw [String.data_append, List.count_append]
  split
  · rw [String.data_append, List.count_append, count_z_header, count_z_badge]
    decide
  · rw [count_z_header]
    decide

theorem icon_eq_true {size : Int} {b : Bool} (hb : b = true) (hs : 128 ≤ size) :
    create_svg_icon size b
      = svg_header size ++ (snapshot_badge size ++ "</svg>") := by
  subst hb
  have hc : (true && decide (size ≥ 128)) = true := by
    simp [decide_eq_true hs]
  unfold create_svg_icon
  rw [if_pos hc, String.append_assoc]

theorem icon_eq_false {size : Int} {b : Bool}
    (h : (b && decide (size ≥ 128)) = false) :
    create_svg_icon size b = svg_header size ++ "</svg>" := by
  unfold create_svg_icon
  rw [if_neg (by simp [h])]

theorem cond_false_of_lt {size : Int} (b : Bool) (hlt : size < 128) :
    (b && decide (size ≥ 128)) = false := by
  have hd : decide (size ≥ 128) = false := decide_eq_false (by omega)
  rw [hd, Bool.and_false]

theorem badge_length_pos (size : Int) : 0 < (snapshot_badge size).length := by
  unfold snapshot_badge
  simp only [String.length_append]
  have h : 0 < String.length "  <rect x=\"" := by decide
  omega

theorem beginsWith_append_of (p s t : List Char) (h : beginsWith p s = true) :
    beginsWith p (s ++ t) = true := by
  induction p generalizing s with
  | nil => rfl
  | cons x xs ih =>
    cases s with
    | nil => simp [beginsWith] at h
    | cons c cs =>
      rw [beginsWith] at h
      rcases (Bool.and_eq_true _ _).mp h with ⟨h1, h2⟩
      rw [List.cons_append, beginsWith, h1, ih cs h2]
      rfl

theorem strStarts_self (p : String) : strStarts p p = true := by
  unfold strStarts
  have hb := beginsWith_append_right p.data []
  rwa [List.append_nil] at hb

theorem strStarts_append_left {p s t : String} (h : strStarts p s = true) :
    strStarts p (s ++ t) = true := by
  unfold strStarts at h ⊢
  rw [String.data_append]
  exact beginsWith_append_of _ _ _ h

theorem strEnds_self (p : String) : strEnds p p = true := by
  unfold strEnds
  have hb := beginsWith_append_right p.data.reverse []
  rwa [List.append_nil] at hb

theorem strEnds_append_right {p s t : String} (h : strEnds p t = true) :
    strEnds p (s ++ t) = true := by
  unfold strEnds at h ⊢
  rw [String.data_append, List.reverse_append]
  exact beginsWith_append_of _ _ _ h

theorem data_ne_nil_of_head (x y : String) (hx : x.data ≠ []) : (x ++ y).data ≠ [] := by
  rw [String.data_append]
  intro hn
  exact hx (List.append_eq_nil.mp hn).1

/-- Any output of `create_svg_icon` is the header followed by some tail
(the badge and the closing tag, or just the closing tag). -/
theorem icon_decomp (size : Int) (b : Bool) :
    ∃ T : String, create_svg_icon size b = svg_header size ++ T := by
  unfold create_svg_icon
  split
  · exact ⟨snapshot_badge size ++ "</svg>", String.append_assoc _ _ _⟩
  · exact ⟨"</svg>", rfl⟩

/-- The part of the header before the "RL4" label. -/
def pre_label (size : Int) : String :=
  "<svg width=\"" ++ Int.repr size ++ "\" height=\"" ++ Int.repr size ++ "\"" ++ " " ++
  "xmlns=\"http://www.w3.org/2000/svg\"" ++ ">" ++ "\n  " ++
  "<rect width=\"" ++ Int.repr size ++ "\" height=\"" ++ Int.repr size ++
  "\" fill=\"#5436DA\"/>" ++
  "\n  <text x=\"50%\" y=\"50%\" font-family=\"Arial, sans-serif\" " ++
  "font-size=\"" ++ Int.repr (Int.fdiv size 2) ++ "\"" ++
  " font-weight=\"bold\" fill=\"white\" text-anchor=\"middle\" dominant-baseline=\"central\">"

/-- The part of the header before the font-size attribute. -/
def pre_font (size : Int) : String :=
  "<svg width=\"" ++ Int.repr size ++ "\" height=\"" ++ Int.repr size ++ "\"" ++ " " ++
  "xmlns=\"http://www.w3.org/2000/svg\"" ++ ">" ++ "\n  " ++
  "<rect width=\"" ++ Int.repr size ++ "\" height=\"" ++ Int.repr size ++
  "\" fill=\"#5436DA\"/>" ++
  "\n  <text x=\"50%\" y=\"50%\" font-family=\"Arial, sans-serif\" "

/-- The part of the header after the font-size attribute. -/
def post_font : String :=
  " font-weight=\"bold\" fill=\"white\" text-anchor=\"middle\" dominant-baseline=\"central\">" ++
  "RL4" ++ "</text>\n"

/-- The part of the header before the background rectangle. -/
def pre_bg (size : Int) : String :=
  "<svg width=\"" ++ Int.repr size ++ "\" height=\"" ++ Int.repr size ++ "\"" ++ " " ++
  "xmlns=\"http://www.w3.org/2000/svg\"" ++ ">" ++ "\n  "

/-- The part of the header after the background rectangle. -/
def post_bg (size : Int) : String :=
  "\n  <text x=\"50%\" y=\"50%\" font-family=\"Arial, sans-serif\" " ++
  "font-size=\"" ++ Int.repr (Int.fdiv size 2) ++ "\"" ++
  " font-weight=\"bold\" fill=\"white\" text-anchor=\"middle\" dominant-baseline=\"central\">" ++
  "RL4" ++ "</text>\n"

/-- The part of the header before the xmlns attribute. -/
def pre_xmlns (size : Int) : String :=
  "<svg width=\"" ++ Int.repr size ++ "\" height=\"" ++ Int.repr size ++ "\"" ++ " "

/-- The part of the header after the closing `>` of the opening tag. -/
def post_open (size : Int) : String :=
  "\n  " ++
  "<rect width=\"" ++ Int.repr size ++ "\" height=\"" ++ Int.repr size ++
  "\" fill=\"#5436DA\"/>" ++
  "\n  <text x=\"50%\" y=\"50%\" font-family=\"Arial, sans-serif\" " ++
  "font-size=\"" ++ Int.repr (Int.fdiv size 2) ++ "\"" ++
  " font-weight=\"bold\" fill=\"white\" text-anchor=\"middle\" dominant-baseline=\"central\">" ++
  "RL4" ++ "</text>\n"

/-- Claim C1: the output of `create_svg_icon` carries the decorative badge
overlay (i.e. equals the header followed by the badge block and the closing
tag) if and only if `add_snapshot` is true and `size ≥ 128`; below size 128
the flag is ignored, so in particular the outputs for size 16 with the flag
false and true are identical. -/
theorem claim_C1 :
    (∀ (size : Int) (b : Bool),
      create_svg_icon size b = svg_header size ++ (snapshot_badge size ++ "</svg>")
        ↔ (b = true ∧ 128 ≤ size))
    ∧ (∀ (size : Int) (b b' : Bool), size < 128 →
        create_svg_icon size b = create_svg_icon size b')
    ∧ create_svg_icon 16 false = create_svg_icon 16 true := by
  refine ⟨?_, ?_, ?_⟩
  · intro size b
    constructor
    · intro heq
      by_contra hnot
      have hcond : (b && decide (size ≥ 128)) = false := by
        cases b
        · simp
        · simp only [Bool.true_and]
          apply decide_eq_false
          intro hge
          exact hnot ⟨rfl, hge⟩
      have h2 := icon_eq_false hcond
      rw [heq] at h2
      have hlen := congrArg String.length h2
      rw [String.length_append, String.length_append, String.length_append] at hlen
      have hpos := badge_length_pos size
      omega
    · rintro ⟨hb, hs⟩
      exact icon_eq_true hb hs
  · intro size b b' hlt
    rw [icon_eq_false (cond_false_of_lt b hlt), icon_eq_false (cond_false_of_lt b' hlt)]
  · decide

/-- Witness for C1: the size-100 hypothesis of the flag-independence part is
discharged at a concrete input. -/
theorem claim_C1_witness : create_svg_icon 100 false = create_svg_icon 100 true :=
  claim_C1.2.1 100 false true (by decide)

/-- Claim C3: for every positive size and flag, the output starts with
`<svg width="{size}" height="{size}"` (with the decimal rendering of the
size substituted) and ends with `</svg>`. -/
theorem claim_C3 (size : Int) (b : Bool) (h : 0 < size) :
    strStarts ("<svg width=\"" ++ Int.repr size ++ "\" height=\"" ++ Int.repr size ++ "\"")
      (create_svg_icon size b) = true
    ∧ strEnds "</svg>" (create_svg_icon size b) = true := by
  constructor
  · obtain ⟨T, hT⟩ := icon_decomp size b
    rw [hT]
    apply strStarts_append_left
    unfold svg_header
    iterate 16 apply strStarts_append_left
    exact strStarts_self _
  · unfold create_svg_icon
    apply strEnds_append_right
    exact strEnds_self _

/-- Witness for C3 at size 48. -/
theorem claim_C3_witness :
    strStarts ("<svg width=\"" ++ Int.repr 48 ++ "\" height=\"" ++ Int.repr 48 ++ "\"")
      (create_svg_icon 48 false) = true
    ∧ strEnds "</svg>" (create_svg_icon 48 false) = true :=
  claim_C3 48 false (by decide)

/-- Claim C5: for every positive size and flag, the output contains the
substring `RL4` exactly once. -/
theorem claim_C5 (size : Int) (b : Bool) (h : 0 < size) :
    strOccCount "RL4" (create_svg_icon size b) = 1 := by
  have hdef : strOccCount "RL4" (create_svg_icon size b)
      = occCount ('R' :: ['L', '4']) (create_svg_icon size b).data := rfl
  have hupper := occCount_le_count 'R' ['L', '4'] (create_svg_icon size b).data
  have hcnt := count_R_icon size b
  have hlower : 1 ≤ strOccCount "RL4" (create_svg_icon size b) := by
    obtain ⟨T, hT⟩ := icon_decomp size b
    have hs : create_svg_icon size b
        = pre_label size ++ ("RL4" ++ ("</text>\n" ++ T)) := by
      rw [hT]
      unfold svg_header pre_label
      simp only [String.append_assoc]
    exact one_le_strOccCount (by decide) hs
  omega

/-- Witness for C5 at size 17. -/
theorem claim_C5_witness : strOccCount "RL4" (create_svg_icon 17 true) = 1 :=
  claim_C5 17 true (by decide)

/-- Claim C4: for every positive size, the (unique) font-size attribute in
the output carries the floor of `size / 2`; for size 48 the emitted value
is 24, and for size 17 it is 8. -/
theorem claim_C4 :
    (∀ (size : Int) (b : Bool), 0 < size →
      strOccCount "font-size=\"" (create_svg_icon size b) = 1
      ∧ ∃ A B : String, create_svg_icon size b
          = A ++ ("font-size=\"" ++ (Int.repr (Int.fdiv size 2) ++ ("\"" ++ B))))
    ∧ (∀ b : Bool, strOccCount "font-size=\"24\"" (create_svg_icon 48 b) = 1)
    ∧ (∀ b : Bool, strOccCount "font-size=\"8\"" (create_svg_icon 17 b) = 1) := by
  refine ⟨?_, ?_, ?_⟩
  · intro size b hpos
    obtain ⟨T, hT⟩ := icon_decomp size b
    have hs : create_svg_icon size b
        = pre_font size ++ ("font-size=\"" ++ (Int.repr (Int.fdiv size 2) ++
            ("\"" ++ (post_font ++ T)))) := by
      rw [hT]
      unfold svg_header pre_font post_font
      simp only [String.append_assoc]
    constructor
    · have hlower : 1 ≤ strOccCount "font-size=\"" (create_svg_icon size b) :=
        one_le_strOccCount (by decide) hs
      have hsplitpat : ("font-size=\"" : String).data = "font-si".data ++ "ze=\"".data := rfl
      have h1 : occCount ("font-size=\"" : String).data (create_svg_icon size b).data
          ≤ occCount ("ze=\"" : String).data (create_svg_icon size b).data := by
        rw [hsplitpat]
        exact occCount_append_pat_le _ (by decide) _ _
      have hz : ("ze=\"" : String).data = 'z' :: ("e=\"" : String).data := rfl
      have h2 : occCount ("ze=\"" : String).data (create_svg_icon size b).data
          ≤ List.count 'z' (create_svg_icon size b).data := by
        rw [hz]
        exact occCount_le_count _ _ _
      have hcnt := count_z_icon size b
      have hdef : strOccCount "font-size=\"" (create_svg_icon size b)
          = occCount ("font-size=\"" : String).data (create_svg_icon size b).data := rfl
      have hdef2 : strOccCount "ze=\"" (create_svg_icon size b)
          = occCount ("ze=\"" : String).data (create_svg_icon size b).data := rfl
      omega
    · exact ⟨pre_font size, post_font ++ T, hs⟩
  · intro b
    cases b <;> decide
  · intro b
    cases b <;> decide

/-- Witness for C4 at size 5 with the flag set. -/
theorem claim_C4_witness :
    strOccCount "font-size=\"" (create_svg_icon 5 true) = 1
    ∧ ∃ A B : String, create_svg_icon 5 true
        = A ++ ("font-size=\"" ++ (Int.repr (Int.fdiv 5 2) ++ ("\"" ++ B))) :=
  claim_C4.1 5 true (by decide)

/-- Claim C6: for every positive size and flag, the output contains the
full-canvas background rectangle `<rect width="{size}" height="{size}"
fill="#5436DA"/>`. -/
theorem claim_C6 (size : Int) (b : Bool) (h : 0 < size) :
    (∃ A B : String, create_svg_icon size b
      = A ++ (("<rect width=\"" ++ Int.repr size ++ "\" height=\"" ++ Int.repr size ++
          "\" fill=\"#5436DA\"/>") ++ B))
    ∧ 1 ≤ strOccCount
        ("<rect width=\"" ++ Int.repr size ++ "\" height=\"" ++ Int.repr size ++
          "\" fill=\"#5436DA\"/>") (create_svg_icon size b) := by
  obtain ⟨T, hT⟩ := icon_decomp size b
  have hs : create_svg_icon size b
      = pre_bg size ++ (("<rect width=\"" ++ Int.repr size ++ "\" height=\"" ++
          Int.repr size ++ "\" fill=\"#5436DA\"/>") ++ (post_bg size ++ T)) := by
    rw [hT]
    unfold svg_header pre_bg post_bg
    simp only [String.append_assoc]
  have hpat : ("<rect width=\"" ++ Int.repr size ++ "\" height=\"" ++ Int.repr size ++
      "\" fill=\"#5436DA\"/>").data ≠ [] :=
    data_ne_nil_of_head _ _ (data_ne_nil_of_head _ _ (data_ne_nil_of_head _ _
      (data_ne_nil_of_head _ _ (by decide))))
  exact ⟨⟨pre_bg size, post_bg size ++ T, hs⟩, one_le_strOccCount hpat hs⟩

/-- Witness for C6 at size 16. -/
theorem claim_C6_witness :
    (∃ A B : String, create_svg_icon 16 false
      = A ++ (("<rect width=\"" ++ Int.repr 16 ++ "\" height=\"" ++ Int.repr 16 ++
          "\" fill=\"#5436DA\"/>") ++ B))
    ∧ 1 ≤ strOccCount
        ("<rect width=\"" ++ Int.repr 16 ++ "\" height=\"" ++ Int.repr 16 ++
          "\" fill=\"#5436DA\"/>") (create_svg_icon 16 false) :=
  claim_C6 16 false (by decide)

/-- Claim C2: at size 128 with the flag set, the output contains each badge
sub-element exactly once (the unfilled square, the three interior lines,
the circle, the triangle), with the offsets from the literal constants
substituted; with the flag unset it contains none of them. -/
theorem claim_C2 :
    strOccCount "<rect x=\"88\" y=\"88\" width=\"32\" height=\"32\" fill=\"none\" stroke=\"white\" stroke-width=\"2\"/>"
      (create_svg_icon 128 true) = 1
    ∧ strOccCount "<line x1=\"92\" y1=\"98\" x2=\"120\" y2=\"98\" stroke=\"white\" stroke-width=\"1\"/>"
      (create_svg_icon 128 true) = 1
    ∧ strOccCount "<line x1=\"92\" y1=\"104\" x2=\"120\" y2=\"104\" stroke=\"white\" stroke-width=\"1\"/>"
      (create_svg_icon 128 true) = 1
    ∧ strOccCount "<line x1=\"92\" y1=\"110\" x2=\"120\" y2=\"110\" stroke=\"white\" stroke-width=\"1\"/>"
      (create_svg_icon 128 true) = 1
    ∧ strOccCount "<line" (create_svg_icon 128 true) = 3
    ∧ strOccCount "<circle cx=\"104\" cy=\"76\" r=\"8\" fill=\"none\" stroke=\"white\" stroke-width=\"2\"/>"
      (create_svg_icon 128 true) = 1
    ∧ strOccCount "<polygon points=\"104,68 100,72 108,72\" fill=\"white\"/>"
      (create_svg_icon 128 true) = 1
    ∧ strOccCount "<rect" (create_svg_icon 128 true) = 2
    ∧ strOccCount "<rect x=" (create_svg_icon 128 false) = 0
    ∧ strOccCount "<line" (create_svg_icon 128 false) = 0
    ∧ strOccCount "<circle" (create_svg_icon 128 false) = 0
    ∧ strOccCount "<polygon" (create_svg_icon 128 false) = 0
    ∧ strOccCount "fill=\"none\"" (create_svg_icon 128 false) = 0 := by
  decide

/-- Claim C7: `create_svg_icon` is deterministic — equal inputs give equal
outputs (it is a pure function of its two arguments in this embedding). -/
theorem claim_C7 (s₁ s₂ : Int) (b₁ b₂ : Bool) (h₁ : s₁ = s₂) (h₂ : b₁ = b₂) :
    create_svg_icon s₁ b₁ = create_svg_icon s₂ b₂ := by
  rw [h₁, h₂]

/-- Witness for C7 at (128, true). -/
theorem claim_C7_witness : create_svg_icon 128 true = create_svg_icon 128 true :=
  claim_C7 128 128 true true rfl rfl

/-- Claim C8: `create_svg_icon` is total over all integers (including zero
and negative sizes) and all flags: it always returns a string, which still
carries the opening `<svg` and closing `</svg>` frame. -/
theorem claim_C8 (size : Int) (b : Bool) :
    (∃ out : String, create_svg_icon size b = out)
    ∧ strStarts "<svg width=\"" (create_svg_icon size b) = true
    ∧ strEnds "</svg>" (create_svg_icon size b) = true
    ∧ 0 < (create_svg_icon size b).length := by
  refine ⟨⟨_, rfl⟩, ?_, ?_, ?_⟩
  · unfold create_svg_icon
    apply strStarts_append_left
    split
    · apply strStarts_append_left
      unfold svg_header
      iterate 20 apply strStarts_append_left
      exact strStarts_self _
    · unfold svg_header
      iterate 20 apply strStarts_append_left
      exact strStarts_self _
  · unfold create_svg_icon
    apply strEnds_append_right
    exact strEnds_self _
  · unfold create_svg_icon
    rw [String.length_append]
    have hc : 0 < String.length "</svg>" := by decide
    omega

/-- Claim C9: for size ≥ 128, the badge is inserted immediately before the
trailing `</svg>`: the flag-off output is the stem plus `</svg>`, the
flag-on output is the same stem plus the badge plus `</svg>`, and the stem
is an initial segment of the flag-on output. -/
theorem claim_C9 (size : Int) (h : 128 ≤ size) :
    ∃ stem : String,
      create_svg_icon size false = stem ++ "</svg>"
      ∧ create_svg_icon size true = stem ++ (snapshot_badge size ++ "</svg>")
      ∧ strStarts stem (create_svg_icon size true) = true := by
  refine ⟨svg_header size, ?_, ?_, ?_⟩
  · exact icon_eq_false (by simp)
  · exact icon_eq_true rfl h
  · exact strStarts_of_append (icon_eq_true rfl h)

/-- Witness for C9 at size 128. -/
theorem claim_C9_witness :
    ∃ stem : String,
      create_svg_icon 128 false = stem ++ "</svg>"
      ∧ create_svg_icon 128 true = stem ++ (snapshot_badge 128 ++ "</svg>")
      ∧ strStarts stem (create_svg_icon 128 true) = true :=
  claim_C9 128 (by decide)

/-- Claim C10: the opening `<svg>` element always carries the XML namespace
attribute `xmlns="http://www.w3.org/2000/svg"`. -/
theorem claim_C10 (size : Int) (b : Bool) :
    (∃ rest : String, create_svg_icon size b
       = "<svg width=\"" ++ Int.repr size ++ "\" height=\"" ++ Int.repr size ++
         "\" xmlns=\"http://www.w3.org/2000/svg\">" ++ rest)
    ∧ 1 ≤ strOccCount "xmlns=\"http://www.w3.org/2000/svg\"" (create_svg_icon size b) := by
  obtain ⟨T, hT⟩ := icon_decomp size b
  constructor
  · refine ⟨post_open size ++ T, ?_⟩
    have hM : ("\" xmlns=\"http://www.w3.org/2000/svg\">" : String)
        = "\"" ++ " " ++ "xmlns=\"http://www.w3.org/2000/svg\"" ++ ">" := by decide
    rw [hT, hM]
    unfold svg_header post_open
    simp only [String.append_assoc]
  · have hs : create_svg_icon size b
        = pre_xmlns size ++ ("xmlns=\"http://www.w3.org/2000/svg\"" ++
            (">" ++ (post_open size ++ T))) := by
      rw [hT]
      unfold svg_header pre_xmlns post_open
      simp only [String.append_assoc]
    exact one_le_strOccCount (by decide) hs
